import Mathlib

/-!
Verification of the `generate_project.py` pipeline (ProjectGenerator).

Strings are modelled as `List Char`. Python primitives (`str.find`,
slicing, `str.strip`, `in`, `or` on strings) are embedded as executable
functions with Python's semantics for the arguments the program uses.
Filesystem writes and directory creation are modelled as explicit
effect traces (lists of `FileWrite` / directory names), so that "file X
is written" is a statement about the trace.
-/

set_option maxRecDepth 100000

namespace ProjGen

/-- Whitespace characters removed by Python `str.strip()` (ASCII set). -/
def pySpace (c : Char) : Bool :=
  c == ' ' || c == '\t' || c == '\n' || c == '\r' || c == '\x0b' || c == '\x0c'

/-- Python `s.strip()`: drop leading and trailing whitespace. -/
def pyStrip (s : List Char) : List Char :=
  ((s.dropWhile pySpace).reverse.dropWhile pySpace).reverse

/-- Boolean test that `p` is a leading segment of `s`. -/
def isPfx : List Char → List Char → Bool
  | [], _ => true
  | _ :: _, [] => false
  | a :: p, b :: s => a == b && isPfx p s

/-- Index of the first occurrence of `pat` in `s`, if any. -/
def findSub : List Char → List Char → Option Nat
  | [], pat => if pat.isEmpty then some 0 else none
  | a :: t, pat => if isPfx pat (a :: t) then some 0 else (findSub t pat).map (· + 1)

/-- Python `s.find(pat)`: first index, or `-1` when absent. -/
def pyFind (s pat : List Char) : Int :=
  match findSub s pat with
  | none => -1
  | some n => n

/-- Python `s.find(pat, start)` for a nonnegative `start`. -/
def pyFindFrom (s pat : List Char) (start : Nat) : Int :=
  match findSub (s.drop start) pat with
  | none => -1
  | some n => (start + n : Nat)

/-- Python `pat in s` (substring test). -/
def pyContains (s pat : List Char) : Bool :=
  (findSub s pat).isSome

/-- Python slice `s[a:b]`: negative indices count from the end, then both
bounds are clamped to `[0, len(s)]`. -/
def pySlice (s : List Char) (a b : Int) : List Char :=
  (s.take ((if b < 0 then max ((s.length : Int) + b) 0 else min b (s.length : Int)).toNat)).drop
    ((if a < 0 then max ((s.length : Int) + a) 0 else min a (s.length : Int)).toNat)

/-- Python `s.endswith(suf)`. -/
def pyEndsWith (s suf : List Char) : Bool :=
  isPfx suf.reverse s.reverse

/-- Python `s.lower()` (ASCII). -/
def pyLower (s : List Char) : List Char :=
  s.map Char.toLower

/-- Marker `"PROJECT_NAME:"` (length 13, the offset hard-coded at line 138). -/
def mPN : List Char := "PROJECT_NAME:".toList

/-- Marker `"DESCRIPTION:"` (length 12, the offset hard-coded at line 144). -/
def mDESC : List Char := "DESCRIPTION:".toList

/-- Marker `"===MAIN_PY_START==="`. -/
def mMPS : List Char := "===MAIN_PY_START===".toList

/-- Marker `"===MAIN_PY_END==="`. -/
def mMPE : List Char := "===MAIN_PY_END===".toList

/-- Marker `"===REQUIREMENTS_START==="`. -/
def mRQS : List Char := "===REQUIREMENTS_START===".toList

/-- Marker `"===REQUIREMENTS_END==="`. -/
def mRQE : List Char := "===REQUIREMENTS_END===".toList

/-- Marker `"===README_START==="`. -/
def mRDS : List Char := "===README_START===".toList

/-- Marker `"===README_END==="`. -/
def mRDE : List Char := "===README_END===".toList

/-- Single newline, the terminator used for the two line-oriented fields. -/
def nlChar : List Char := ['\n']

/-- The intermediate field mapping built by `_parse_structured_response`:
a Python dict with five possible string keys, a key being absent modelled
by `none`. -/
structure RawFields where
  project_name : Option (List Char)
  description : Option (List Char)
  main_py : Option (List Char)
  requirements_txt : Option (List Char)
  readme_md : Option (List Char)
deriving DecidableEq

/-- Extraction of a `MARKER:`-to-newline field (lines 137-146):
`start = content.find(marker) + len(marker); end = content.find("\n", start);
content[start:end].strip()`, guarded by `marker in content`. -/
def extractLineField (content marker : List Char) : Option (List Char) :=
  if pyContains content marker then
    some (pyStrip (pySlice content (pyFind content marker + marker.length)
      (pyFindFrom content nlChar (pyFind content marker + marker.length).toNat)))
  else none

/-- Extraction of a start/end delimited block (lines 149-170):
`start = content.find(start_marker) + len(start_marker);
end = content.find(end_marker); content[start:end].strip()`, guarded by
both markers being present. -/
def extractBlockField (content startM endM : List Char) : Option (List Char) :=
  if pyContains content startM && pyContains content endM then
    some (pyStrip (pySlice content (pyFind content startM + startM.length)
      (pyFind content endM)))
  else none

/-- The extraction phase of `_parse_structured_response` (lines 134-170). -/
def extractAll (content : List Char) : RawFields :=
  { project_name := extractLineField content mPN
    description := extractLineField content mDESC
    main_py := extractBlockField content mMPS mMPE
    requirements_txt := extractBlockField content mRQS mRQE
    readme_md := extractBlockField content mRDS mRDE }

/-- Default for a missing `project_name` (line 174). -/
def pnDefault : List Char := "generated_project".toList

/-- Default for a missing `description` (line 176). -/
def descDefault : List Char := "AI generated Python project".toList

/-- Default for a missing `requirements_txt` (line 180). -/
def reqDefault : List Char := "# No requirements specified".toList

/-- Message of the `ValueError` raised when `main_py` is missing (line 178). -/
def noMainMsg : List Char := "No main.py code found in response".toList

/-- The defaulting phase of `_parse_structured_response` (lines 172-184),
in the source's order: default `project_name`, then `description`, then
raise if `main_py` is absent, then default `requirements_txt` and
`readme_md` (the latter built from the already-defaulted name and
description). -/
def applyDefaults (r : RawFields) : Except (List Char) RawFields :=
  let r1 := { r with project_name := some (r.project_name.getD pnDefault) }
  let r2 := { r1 with description := some (r1.description.getD descDefault) }
  match r2.main_py with
  | none => Except.error noMainMsg
  | some _ =>
    let r3 := { r2 with requirements_txt := some (r2.requirements_txt.getD reqDefault) }
    let r4 := { r3 with readme_md := some (r3.readme_md.getD
        ("# ".toList ++ r3.project_name.getD [] ++ "\n\n".toList ++ r3.description.getD [])) }
    Except.ok r4

/-- `_parse_structured_response` (lines 132-184): extraction then defaults;
the error is the `ValueError` for a missing `main_py`. -/
def parseStructuredResponse (content : List Char) : Except (List Char) RawFields :=
  applyDefaults (extractAll content)

/-- Message of the missing-required-fields `ValueError` (line 125). -/
def missingMsg : List Char := "Missing required fields".toList

/-- The `missing_fields` list comprehension of `_parse_response`
(lines 121-122), preserving the order of `required_fields`. -/
def missingFields (r : RawFields) : List (List Char) :=
  (if r.project_name.isNone then ["project_name".toList] else []) ++
  (if r.main_py.isNone then ["main_py".toList] else []) ++
  (if r.requirements_txt.isNone then ["requirements_txt".toList] else []) ++
  (if r.readme_md.isNone then ["readme_md".toList] else [])

/-- One file write performed by the pipeline: a path (as segments) and the
text written there. -/
structure FileWrite where
  path : List (List Char)
  content : List Char
deriving DecidableEq

/-- The unconditional debug dump of `_parse_response` (lines 113-116): the
raw content is written to `debug_response.txt` before parsing. -/
def debugWrite (content : List Char) : FileWrite :=
  { path := ["debug_response.txt".toList], content := content }

/-- `_parse_response` (lines 108-130) on an already-extracted content
string: write the debug file, parse, then validate the four required
fields. The first component is the trace of file writes so far. -/
def parseResponseRun (content : List Char) :
    List FileWrite × Except (List Char) RawFields :=
  match parseStructuredResponse content with
  | Except.error e => ([debugWrite content], Except.error e)
  | Except.ok r =>
    if missingFields r = [] then ([debugWrite content], Except.ok r)
    else ([debugWrite content], Except.error missingMsg)

/-- Name sanitization of `create_project_files` (line 192): keep only
alphanumeric characters and `.`, `_`, `-`. -/
def sanitizeName (s : List Char) : List Char :=
  s.filter (fun c => c.isAlphanum || c == '.' || c == '_' || c == '-')

/-- Content of the generated `test_main.py` (`_create_basic_test`,
lines 238-255). -/
def basicTestContent : List Char :=
  ("import unittest\nfrom main import *\n\nclass TestProject(unittest.TestCase):\n" ++
   "    def setUp(self):\n        \"\"\"Set up test fixtures before each test method.\"\"\"\n" ++
   "        pass\n    \n    def test_basic_functionality(self):\n" ++
   "        \"\"\"Test basic functionality.\"\"\"\n        # Add your tests here\n" ++
   "        self.assertTrue(True)\n\nif __name__ == '__main__':\n    unittest.main()\n").toList

/-- Content of the generated `.gitignore` (`_create_gitignore`,
lines 257-301). -/
def gitignoreContent : List Char :=
  ("# Byte-compiled / optimized / DLL files\n__pycache__/\n*.py[cod]\n*$py.class\n\n" ++
   "# Distribution / packaging\n.Python\nbuild/\ndevelop-eggs/\ndist/\ndownloads/\n" ++
   "eggs/\n.eggs/\nlib/\nlib64/\nparts/\nsdist/\nvar/\nwheels/\n*.egg-info/\n" ++
   ".installed.cfg\n*.egg\n\n# Virtual environments\nvenv/\nenv/\nENV/\n\n" ++
   "# IDE\n.vscode/\n.idea/\n*.swp\n*.swo\n\n# OS\n.DS_Store\nThumbs.db\n\n" ++
   "# Project specific\nconfig.ini\n*.log\n.env\n").toList

/-- `_enhance_readme` (lines 217-236): ensure a trailing newline, append
the Project Information section (with the description line only when the
`description` key is present), then the fixed Installation block. -/
def enhanceReadme (readme : List Char) (date : List Char) (data : RawFields) : List Char :=
  (if pyEndsWith readme nlChar then readme else readme ++ nlChar) ++
  "\n## Project Information\n".toList ++
  "- **Generated on**: ".toList ++ date ++ nlChar ++
  "- **Generated by**: Groq AI Project Generator\n".toList ++
  (match data.description with
   | some d => "- **Description**: ".toList ++ d ++ nlChar
   | none => []) ++
  "\n## Installation\n".toList ++ "```bash\n".toList ++
  "pip install -r requirements.txt\n".toList ++ "python main.py\n".toList ++
  "```\n".toList

/-- `create_project_files` (lines 186-215) as a write trace. The Python
`custom_name or project_data["project_name"]` falls back on a falsy
(absent or empty) custom name; dict accesses to fields guaranteed present
after validation are modelled with `getD []`. Write order follows the
dict insertion order: main.py, requirements.txt, README.md, optional
test_main.py, .gitignore. -/
def createProjectFiles (baseDir : List Char) (data : RawFields)
    (customName : Option (List Char)) (today : List Char) : List FileWrite :=
  let rawName := match customName with
    | some c => if c = [] then data.project_name.getD [] else c
    | none => data.project_name.getD []
  let name := sanitizeName rawName
  let dir : List (List Char) := [baseDir, "project_".toList ++ today, name]
  let base : List FileWrite :=
    [{ path := dir ++ ["main.py".toList], content := data.main_py.getD [] },
     { path := dir ++ ["requirements.txt".toList], content := data.requirements_txt.getD [] },
     { path := dir ++ ["README.md".toList],
       content := enhanceReadme (data.readme_md.getD []) today data }]
  let withTest := if pyContains (pyLower (data.description.getD [])) "test".toList then
      base ++ [{ path := dir ++ ["test_main.py".toList], content := basicTestContent }]
    else base
  withTest ++ [{ path := dir ++ [".gitignore".toList], content := gitignoreContent }]

/-- One run of the parse-then-materialize pipeline of `main` /
`generate_project` after the content string has been obtained: on a parse
failure the exception propagates and only the debug dump has been
written; on success the project files are also written. -/
def runPipeline (baseDir content : List Char) (customName : Option (List Char))
    (today : List Char) : List FileWrite × Except (List Char) RawFields :=
  match parseResponseRun content with
  | (ws, Except.error e) => (ws, Except.error e)
  | (ws, Except.ok r) => (ws ++ createProjectFiles baseDir r customName today, Except.ok r)

/-- `max_retries` of `_make_api_request` (line 96). -/
def maxRetries : Nat := 3

/-- The retry loop of `_make_api_request` (lines 97-106): `remaining`
counts the loop iterations left, `attempt` is the Python loop index. A
stubbed client maps the attempt number to that attempt's outcome. `none`
models the loop falling through (Python would return `None`), which the
last-attempt re-raise makes unreachable. -/
def apiLoop {ε α : Type} (client : Nat → Except ε α) : Nat → Nat → Option (Except ε α)
  | 0, _ => none
  | remaining + 1, attempt =>
    match client attempt with
    | Except.ok r => some (Except.ok r)
    | Except.error e =>
      if attempt = maxRetries - 1 then some (Except.error e)
      else apiLoop client remaining (attempt + 1)

/-- `_make_api_request` (lines 88-106) over a stubbed transport. -/
def makeApiRequest {ε α : Type} (client : Nat → Except ε α) : Option (Except ε α) :=
  apiLoop client maxRetries 0

/-- Message of the `ValueError` raised by `__init__` when no API key is
available (line 21). -/
def cfgMsg : List Char := "GROQ_API_KEY must be provided or set as environment variable".toList

/-- Python `a or b` for optional strings: `a` unless it is falsy
(`None` or empty). -/
def pyOrStr (a b : Option (List Char)) : Option (List Char) :=
  match a with
  | some s => if s = [] then b else some s
  | none => b

/-- The state built by `ProjectGenerator.__init__`. -/
structure GenState where
  api_key : Option (List Char)
  base_dir : List Char
deriving DecidableEq

/-- `ProjectGenerator.__init__` (lines 15-21): resolve the key from the
argument or the environment, create the base directory (`mkdir` with
`exist_ok=True`, recorded in the trace), then raise if the key is falsy.
The first component is the list of directories created. -/
def projectGeneratorInit (apiKeyArg envKey : Option (List Char)) (baseDir : List Char) :
    List (List Char) × Except (List Char) GenState :=
  let key := pyOrStr apiKeyArg envKey
  let dirs := [baseDir]
  if key.getD [] = [] then (dirs, Except.error cfgMsg)
  else (dirs, Except.ok { api_key := key, base_dir := baseDir })

/-- Well-formed content with the five fields in the canonical prompt order. -/
def wfContentA : List Char :=
  ("PROJECT_NAME: demo\nDESCRIPTION: sample\n===MAIN_PY_START===\ncode\n===MAIN_PY_END===\n" ++
   "===REQUIREMENTS_START===\nreq\n===REQUIREMENTS_END===\n" ++
   "===README_START===\nread\n===README_END===\n").toList

/-- The same five field values as `wfContentA`, in a different order. -/
def wfContentB : List Char :=
  ("===README_START===\nread\n===README_END===\n" ++
   "===REQUIREMENTS_START===\nreq\n===REQUIREMENTS_END===\n" ++
   "DESCRIPTION: sample\nPROJECT_NAME: demo\n===MAIN_PY_START===\ncode\n===MAIN_PY_END===\n").toList

/-- A JSON object payload carrying all five fields (no delimiter markers). -/
def jsonContent : List Char :=
  ("\x7b\"project_name\": \"calc\", \"description\": \"d\", \"main_py\": \"print(1)\", " ++
   "\"requirements_txt\": \"r\", \"readme_md\": \"m\"\x7d").toList

/-- The same JSON object payload wrapped in a markdown code fence. -/
def fencedJsonContent : List Char :=
  ("```json\n\x7b\"project_name\": \"calc\", \"main_py\": \"print(1)\"\x7d\n```").toList

/-- A minimal delimited-layout content with a name line and a main block. -/
def delimContent : List Char :=
  "PROJECT_NAME: calc\n===MAIN_PY_START===\nprint(1)\n===MAIN_PY_END===\n".toList

/-- Content with no markers at all. -/
def noMarkerContent : List Char := "hello".toList

/-- Content with both line fields and a main block. -/
def lineContent : List Char :=
  "PROJECT_NAME: px\nDESCRIPTION: dx\n===MAIN_PY_START===\nm\n===MAIN_PY_END===\n".toList

/-- Content with only a name line and the main block markers. -/
def minimalContent : List Char :=
  "PROJECT_NAME: foo\n===MAIN_PY_START===\nx\n===MAIN_PY_END===".toList

/-- A field mapping whose readme value is the string Hello. -/
def helloData : RawFields :=
  { project_name := some ("n".toList), description := some ("d".toList),
    main_py := some ("m".toList), requirements_txt := some ("r".toList),
    readme_md := some ("Hello".toList) }

theorem isPfx_append_ext (p s t : List Char) (h : isPfx p s = true) :
    isPfx p (s ++ t) = true := by
  induction p generalizing s with
  | nil => rfl
  | cons a q ih =>
    cases s with
    | nil => simp [isPfx] at h
    | cons b s2 =>
      simp only [isPfx, Bool.and_eq_true, beq_iff_eq] at h
      simp only [List.cons_append, isPfx, Bool.and_eq_true, beq_iff_eq]
      exact ⟨h.1, ih s2 h.2⟩

theorem findSub_nil_pat (s : List Char) : findSub s [] = some 0 := by
  cases s <;> simp [findSub, isPfx]

theorem pyContains_append_right (x t p : List Char) (h : pyContains t p = true) :
    pyContains (x ++ t) p = true := by
  induction x with
  | nil => exact h
  | cons a y ih =>
    show (findSub (a :: (y ++ t)) p).isSome = true
    unfold findSub
    by_cases hp : isPfx p (a :: (y ++ t)) = true
    · simp [hp]
    · rw [if_neg hp]
      unfold pyContains at ih
      cases hfs : findSub (y ++ t) p with
      | none => rw [hfs] at ih; simp at ih
      | some n => simp [hfs]

theorem pyContains_append_left (t x p : List Char) (h : pyContains t p = true) :
    pyContains (t ++ x) p = true := by
  induction t with
  | nil =>
    cases p with
    | nil =>
      show (findSub ([] ++ x) []).isSome = true
      rw [List.nil_append, findSub_nil_pat]
      rfl
    | cons b q => simp [pyContains, findSub] at h
  | cons a y ih =>
    show (findSub (a :: (y ++ x)) p).isSome = true
    unfold pyContains findSub at h
    by_cases hp : isPfx p (a :: y) = true
    · have hext := isPfx_append_ext p (a :: y) x hp
      rw [List.cons_append] at hext
      unfold findSub
      simp [hext]
    · rw [if_neg hp] at h
      by_cases hp2 : isPfx p (a :: (y ++ x)) = true
      · unfold findSub
        simp [hp2]
      · unfold findSub
        rw [if_neg hp2]
        have hy : pyContains y p = true := by
          unfold pyContains
          cases hfs : findSub y p with
          | none => rw [hfs] at h; simp at h
          | some n => rfl
        have hyx := ih hy
        unfold pyContains at hyx
        cases hfs : findSub (y ++ x) p with
        | none => rw [hfs] at hyx; simp at hyx
        | some n => simp [hfs]

theorem pyEndsWith_append_right (x t p : List Char) (h : pyEndsWith t p = true) :
    pyEndsWith (x ++ t) p = true := by
  unfold pyEndsWith at h ⊢
  rw [List.reverse_append]
  exact isPfx_append_ext _ _ _ h

theorem take_append_len (X R : List Char) (k : Nat) :
    (X ++ R).take (X.length + k) = X ++ R.take k := by
  induction X with
  | nil => simp
  | cons a t ih => simp [Nat.succ_add, ih]

theorem drop_append_len (X R : List Char) : (X ++ R).drop X.length = R := by
  induction X with
  | nil => rfl
  | cons a t ih => simp [ih]

theorem pySlice_nat (s : List Char) (a b : Nat) (ha : a ≤ s.length) (hb : b ≤ s.length) :
    pySlice s (a : Int) (b : Int) = (s.take b).drop a := by
  unfold pySlice
  rw [if_neg (by omega), if_neg (by omega)]
  rw [min_eq_left (by exact_mod_cast ha), min_eq_left (by exact_mod_cast hb)]
  simp

theorem pySlice_extract (X v Y : List Char) (a b : Int)
    (ha : a = (X.length : Int)) (hb : b = (X.length : Int) + (v.length : Int)) :
    pySlice (X ++ v ++ Y) a b = v := by
  subst ha
  subst hb
  have hcast : (X.length : Int) + (v.length : Int) = ((X.length + v.length : Nat) : Int) := by
    omega
  rw [hcast]
  rw [pySlice_nat _ _ _ (by rw [List.length_append, List.length_append]; omega)
    (by rw [List.length_append, List.length_append]; omega)]
  rw [show X.length + v.length = (X ++ v).length from (List.length_append X v).symm]
  have htv : ((X ++ v) ++ Y).take ((X ++ v).length + 0) = (X ++ v) ++ Y.take 0 :=
    take_append_len (X ++ v) Y 0
  rw [Nat.add_zero, List.take_zero, List.append_nil] at htv
  rw [htv]
  exact drop_append_len X v

theorem findSub_newline (v B : List Char) (h : '\n' ∉ v) :
    findSub (v ++ '\n' :: B) nlChar = some v.length := by
  induction v with
  | nil => simp [findSub, isPfx, nlChar]
  | cons a t ih =>
    have ha : a ≠ '\n' := fun he => h (by simp [he])
    have ht : '\n' ∉ t := fun hm => h (List.mem_cons_of_mem a hm)
    show findSub (a :: (t ++ '\n' :: B)) nlChar = some (t.length + 1)
    unfold findSub
    have hp : isPfx nlChar (a :: (t ++ '\n' :: B)) = false := by
      simp only [nlChar, isPfx, Bool.and_eq_true, Bool.and_eq_false_iff]
      left
      simp only [beq_eq_false_iff_ne, ne_eq]
      exact fun he => ha he.symm
    rw [if_neg (by simp [hp])]
    rw [ih ht]
    rfl

theorem extractLineField_wf (c A v B M : List Char)
    (hc : c = A ++ M ++ v ++ '\n' :: B)
    (hf : findSub c M = some A.length)
    (hv : '\n' ∉ v) :
    extractLineField c M = some (pyStrip v) := by
  subst hc
  have hcont : pyContains (A ++ M ++ v ++ '\n' :: B) M = true := by
    unfold pyContains
    rw [hf]
    rfl
  have hfind : pyFind (A ++ M ++ v ++ '\n' :: B) M = (A.length : Int) := by
    unfold pyFind
    rw [hf]
  unfold extractLineField
  rw [if_pos hcont, hfind]
  have htn : ((A.length : Int) + (M.length : Int)).toNat = A.length + M.length := by omega
  rw [htn]
  have hdrop : (A ++ M ++ v ++ '\n' :: B).drop (A.length + M.length) = v ++ '\n' :: B := by
    rw [show A ++ M ++ v ++ '\n' :: B = (A ++ M) ++ (v ++ '\n' :: B) from by
      simp [List.append_assoc]]
    rw [show A.length + M.length = (A ++ M).length from by simp]
    exact drop_append_len _ _
  have hnl : pyFindFrom (A ++ M ++ v ++ '\n' :: B) nlChar (A.length + M.length) =
      ((A.length + M.length + v.length : Nat) : Int) := by
    unfold pyFindFrom
    rw [hdrop, findSub_newline v B hv]
  rw [hnl]
  have hs : pySlice (A ++ M ++ v ++ '\n' :: B) ((A.length : Int) + (M.length : Int))
      ((A.length + M.length + v.length : Nat) : Int) = v := by
    rw [show A ++ M ++ v ++ '\n' :: B = (A ++ M) ++ v ++ ('\n' :: B) from by
      simp [List.append_assoc]]
    apply pySlice_extract
    · rw [List.length_append]
      omega
    · rw [List.length_append]
      omega
  rw [hs]

theorem extractBlockField_wf (c A v B S E : List Char)
    (hc : c = A ++ S ++ v ++ E ++ B)
    (hfs : findSub c S = some A.length)
    (hfe : findSub c E = some (A.length + S.length + v.length)) :
    extractBlockField c S E = some (pyStrip v) := by
  subst hc
  have hcs : pyContains (A ++ S ++ v ++ E ++ B) S = true := by
    unfold pyContains
    rw [hfs]
    rfl
  have hce : pyContains (A ++ S ++ v ++ E ++ B) E = true := by
    unfold pyContains
    rw [hfe]
    rfl
  have hpfS : pyFind (A ++ S ++ v ++ E ++ B) S = (A.length : Int) := by
    unfold pyFind
    rw [hfs]
  have hpfE : pyFind (A ++ S ++ v ++ E ++ B) E =
      ((A.length + S.length + v.length : Nat) : Int) := by
    unfold pyFind
    rw [hfe]
  unfold extractBlockField
  rw [if_pos (by rw [hcs, hce]; rfl)]
  rw [hpfS, hpfE]
  have hs : pySlice (A ++ S ++ v ++ E ++ B) ((A.length : Int) + (S.length : Int))
      ((A.length + S.length + v.length : Nat) : Int) = v := by
    rw [show A ++ S ++ v ++ E ++ B = (A ++ S) ++ v ++ (E ++ B) from by
      simp [List.append_assoc]]
    apply pySlice_extract
    · rw [List.length_append]
      omega
    · rw [List.length_append]
      omega
  rw [hs]

theorem extractLineField_none (c M : List Char) (h : pyContains c M = false) :
    extractLineField c M = none := by
  unfold extractLineField
  rw [if_neg (by simp [h])]

theorem extractBlockField_none (c S E : List Char)
    (h : (pyContains c S && pyContains c E) = false) :
    extractBlockField c S E = none := by
  unfold extractBlockField
  rw [if_neg (by simp [h])]

theorem applyDefaults_eval (pn ds mp rq rd : Option (List Char)) :
    applyDefaults ⟨pn, ds, mp, rq, rd⟩ =
      (match mp with
       | none => Except.error noMainMsg
       | some m => Except.ok ⟨some (pn.getD pnDefault), some (ds.getD descDefault), some m,
           some (rq.getD reqDefault),
           some (rd.getD ("# ".toList ++ pn.getD pnDefault ++ "\n\n".toList ++
             ds.getD descDefault))⟩) := by
  cases mp <;> rfl

theorem parse_eval (c : List Char) :
    parseStructuredResponse c =
      (match extractBlockField c mMPS mMPE with
       | none => Except.error noMainMsg
       | some m => Except.ok ⟨some ((extractLineField c mPN).getD pnDefault),
           some ((extractLineField c mDESC).getD descDefault), some m,
           some ((extractBlockField c mRQS mRQE).getD reqDefault),
           some ((extractBlockField c mRDS mRDE).getD
             ("# ".toList ++ (extractLineField c mPN).getD pnDefault ++ "\n\n".toList ++
              (extractLineField c mDESC).getD descDefault))⟩) := by
  show applyDefaults (extractAll c) = _
  exact applyDefaults_eval _ _ _ _ _

theorem filter_idem (p : Char → Bool) (s : List Char) :
    (s.filter p).filter p = s.filter p := by
  induction s with
  | nil => rfl
  | cons a t ih =>
    cases h : p a <;> simp [List.filter_cons, h, ih]

/-- C8: the project-name sanitization (keeping only alphanumeric
characters and `.`, `_`, `-`) is idempotent: sanitizing an
already-sanitized name yields the same name. -/
theorem sanitizeName_idempotent (s : List Char) :
    sanitizeName (sanitizeName s) = sanitizeName s :=
  filter_idem _ s

theorem apiLoop_step {ε α : Type} (c : Nat → Except ε α) (n a : Nat) :
    apiLoop c (n + 1) a =
      (match c a with
       | Except.ok r => some (Except.ok r)
       | Except.error e =>
         if a = maxRetries - 1 then some (Except.error e)
         else apiLoop c n (a + 1)) := rfl

theorem makeApiRequest_eval {ε α : Type} (c : Nat → Except ε α) :
    makeApiRequest c =
      (match c 0 with
       | Except.ok r => some (Except.ok r)
       | Except.error _ =>
         match c 1 with
         | Except.ok r => some (Except.ok r)
         | Except.error _ =>
           match c 2 with
           | Except.ok r => some (Except.ok r)
           | Except.error e => some (Except.error e)) := by
  show apiLoop c (2 + 1) 0 = _
  rw [apiLoop_step]
  cases c 0 with
  | ok r => rfl
  | error e0 =>
    simp only [maxRetries]
    rw [if_neg (by decide)]
    show apiLoop c (1 + 1) 1 = _
    rw [apiLoop_step]
    cases c 1 with
    | ok r => rfl
    | error e1 =>
      simp only [maxRetries]
      rw [if_neg (by decide)]
      show apiLoop c (0 + 1) 2 = _
      rw [apiLoop_step]
      cases c 2 with
      | ok r => rfl
      | error e2 =>
        simp only [maxRetries]
        rw [if_pos (by decide)]

/-- C4: the client makes at most 3 sequential attempts (the outcome
depends only on the outcomes of attempts 0, 1, 2); a stub failing on the
first two attempts and succeeding on the third yields exactly the result
of a stub succeeding immediately; and a stub failing on every attempt
propagates the third attempt's error. -/
theorem makeApiRequest_retry :
    (∀ (ε α : Type) (c1 c2 : Nat → Except ε α),
      (∀ i, i < maxRetries → c1 i = c2 i) → makeApiRequest c1 = makeApiRequest c2) ∧
    (∀ (ε α : Type) (e0 e1 : ε) (r : α),
      makeApiRequest (fun i =>
          if i = 0 then Except.error e0 else if i = 1 then Except.error e1 else Except.ok r) =
        makeApiRequest (fun _ => (Except.ok r : Except ε α)) ∧
      makeApiRequest (fun _ => (Except.ok r : Except ε α)) = some (Except.ok r)) ∧
    (∀ (ε α : Type) (f : Nat → ε),
      makeApiRequest (fun i => (Except.error (f i) : Except ε α)) =
        some (Except.error (f 2))) := by
  refine ⟨?_, ?_, ?_⟩
  · intro ε α c1 c2 h
    have h0 : c1 0 = c2 0 := h 0 (by decide)
    have h1 : c1 1 = c2 1 := h 1 (by decide)
    have h2 : c1 2 = c2 2 := h 2 (by decide)
    rw [makeApiRequest_eval, makeApiRequest_eval, h0, h1, h2]
  · intro ε α e0 e1 r
    constructor
    · rw [makeApiRequest_eval, makeApiRequest_eval]
      rfl
    · rw [makeApiRequest_eval]
  · intro ε α f
    rw [makeApiRequest_eval]

/-- Witness for C4 at concrete stubs over `Except Nat Nat`. -/
theorem makeApiRequest_retry_witness :
    makeApiRequest (fun i => if i = 0 then Except.error 7 else (Except.ok i : Except Nat Nat)) =
      makeApiRequest (fun i => if i = 0 then Except.error 7 else (Except.ok i : Except Nat Nat)) ∧
    makeApiRequest (fun i =>
        if i = 0 then Except.error 7 else if i = 1 then Except.error 8 else
          (Except.ok 5 : Except Nat Nat)) = some (Except.ok 5) ∧
    makeApiRequest (fun i => (Except.error (i + 10) : Except Nat Nat)) =
      some (Except.error 12) := by
  refine ⟨?_, ?_, ?_⟩
  · exact makeApiRequest_retry.1 Nat Nat _ _ (fun i _ => rfl)
  · have h := (makeApiRequest_retry.2.1 Nat Nat 7 8 5).1
    have h2 := (makeApiRequest_retry.2.1 Nat Nat 7 8 5).2
    exact h.trans h2
  · exact makeApiRequest_retry.2.2 Nat Nat (fun i => i + 10)

/-- C10: the constructor creates the base output directory before the
credential check, so with a falsy key argument and a falsy environment
key it both raises the configuration error and has already recorded the
`mkdir` of the base directory in its trace. -/
theorem projectGeneratorInit_mkdir_before_check
    (apiKeyArg envKey : Option (List Char)) (baseDir : List Char)
    (ha : apiKeyArg.getD [] = []) (he : envKey.getD [] = []) :
    projectGeneratorInit apiKeyArg envKey baseDir = ([baseDir], Except.error cfgMsg) := by
  have hk : pyOrStr apiKeyArg envKey = envKey := by
    cases apiKeyArg with
    | none => rfl
    | some s =>
      simp only [Option.getD] at ha
      simp [pyOrStr, ha]
  simp [projectGeneratorInit, hk, he]

/-- Witness for C10: no key argument, no environment key, base directory
`projects`. -/
theorem projectGeneratorInit_mkdir_before_check_witness :
    projectGeneratorInit none none ("projects".toList) =
      (["projects".toList], Except.error cfgMsg) :=
  projectGeneratorInit_mkdir_before_check none none ("projects".toList) rfl rfl

theorem parse_ok_proj (c : List Char) (r : RawFields)
    (h : parseStructuredResponse c = Except.ok r) :
    r.project_name = some ((extractLineField c mPN).getD pnDefault) ∧
    r.description = some ((extractLineField c mDESC).getD descDefault) ∧
    r.requirements_txt = some ((extractBlockField c mRQS mRQE).getD reqDefault) ∧
    r.readme_md = some ((extractBlockField c mRDS mRDE).getD
      ("# ".toList ++ (extractLineField c mPN).getD pnDefault ++ "\n\n".toList ++
       (extractLineField c mDESC).getD descDefault)) := by
  rw [parse_eval] at h
  cases hmp : extractBlockField c mMPS mMPE with
  | none => rw [hmp] at h; exact absurd h (by simp)
  | some m =>
    rw [hmp] at h
    have h2 : (Except.ok (⟨some ((extractLineField c mPN).getD pnDefault),
        some ((extractLineField c mDESC).getD descDefault), some m,
        some ((extractBlockField c mRQS mRQE).getD reqDefault),
        some ((extractBlockField c mRDS mRDE).getD
          ("# ".toList ++ (extractLineField c mPN).getD pnDefault ++ "\n\n".toList ++
           (extractLineField c mDESC).getD descDefault))⟩ : RawFields) :
        Except (List Char) RawFields) = Except.ok r := h
    cases h2
    exact ⟨rfl, rfl, rfl, rfl⟩

theorem parse_ok_exists (c : List Char)
    (hms : pyContains c mMPS = true) (hme : pyContains c mMPE = true) :
    ∃ r, parseStructuredResponse c = Except.ok r := by
  rw [parse_eval]
  have hm : extractBlockField c mMPS mMPE = some (pyStrip (pySlice c
      (pyFind c mMPS + mMPS.length) (pyFind c mMPE))) := by
    unfold extractBlockField
    rw [if_pos (by rw [hms, hme]; rfl)]
  rw [hm]
  exact ⟨_, rfl⟩

theorem parse_wf (c An vn Bn Ad vd Bd Am vm Bm Ar vr Br Ak vk Bk : List Char)
    (hn1 : c = An ++ mPN ++ vn ++ '\n' :: Bn)
    (hn2 : findSub c mPN = some An.length)
    (hn3 : '\n' ∉ vn)
    (hd1 : c = Ad ++ mDESC ++ vd ++ '\n' :: Bd)
    (hd2 : findSub c mDESC = some Ad.length)
    (hd3 : '\n' ∉ vd)
    (hm1 : c = Am ++ mMPS ++ vm ++ mMPE ++ Bm)
    (hm2 : findSub c mMPS = some Am.length)
    (hm3 : findSub c mMPE = some (Am.length + mMPS.length + vm.length))
    (hr1 : c = Ar ++ mRQS ++ vr ++ mRQE ++ Br)
    (hr2 : findSub c mRQS = some Ar.length)
    (hr3 : findSub c mRQE = some (Ar.length + mRQS.length + vr.length))
    (hk1 : c = Ak ++ mRDS ++ vk ++ mRDE ++ Bk)
    (hk2 : findSub c mRDS = some Ak.length)
    (hk3 : findSub c mRDE = some (Ak.length + mRDS.length + vk.length)) :
    parseStructuredResponse c = Except.ok
      { project_name := some (pyStrip vn), description := some (pyStrip vd),
        main_py := some (pyStrip vm), requirements_txt := some (pyStrip vr),
        readme_md := some (pyStrip vk) } := by
  have e1 := extractLineField_wf c An vn Bn mPN hn1 hn2 hn3
  have e2 := extractLineField_wf c Ad vd Bd mDESC hd1 hd2 hd3
  have e3 := extractBlockField_wf c Am vm Bm mMPS mMPE hm1 hm2 hm3
  have e4 := extractBlockField_wf c Ar vr Br mRQS mRQE hr1 hr2 hr3
  have e5 := extractBlockField_wf c Ak vk Bk mRDS mRDE hk1 hk2 hk3
  rw [parse_eval, e1, e2, e3, e4, e5]
  rfl

/-- C1: for content in which each of the five fields is delimited by a
well-formed marker pair (the marker's first occurrence opens the field,
and for the two line fields the value runs to the next newline), the
parser returns the whitespace-trimmed enclosed text of every field; and
since the result is determined by the five enclosed values alone, two
contents carrying the same values in different field orders parse to the
same mapping. -/
theorem parse_fiveFields_order_independent
    (c c2 vn vd vm vr vk : List Char)
    (An Bn Ad Bd Am Bm Ar Br Ak Bk : List Char)
    (A2n B2n A2d B2d A2m B2m A2r B2r A2k B2k : List Char)
    (hn1 : c = An ++ mPN ++ vn ++ '\n' :: Bn)
    (hn2 : findSub c mPN = some An.length)
    (hn3 : '\n' ∉ vn)
    (hd1 : c = Ad ++ mDESC ++ vd ++ '\n' :: Bd)
    (hd2 : findSub c mDESC = some Ad.length)
    (hd3 : '\n' ∉ vd)
    (hm1 : c = Am ++ mMPS ++ vm ++ mMPE ++ Bm)
    (hm2 : findSub c mMPS = some Am.length)
    (hm3 : findSub c mMPE = some (Am.length + mMPS.length + vm.length))
    (hr1 : c = Ar ++ mRQS ++ vr ++ mRQE ++ Br)
    (hr2 : findSub c mRQS = some Ar.length)
    (hr3 : findSub c mRQE = some (Ar.length + mRQS.length + vr.length))
    (hk1 : c = Ak ++ mRDS ++ vk ++ mRDE ++ Bk)
    (hk2 : findSub c mRDS = some Ak.length)
    (hk3 : findSub c mRDE = some (Ak.length + mRDS.length + vk.length))
    (gn1 : c2 = A2n ++ mPN ++ vn ++ '\n' :: B2n)
    (gn2 : findSub c2 mPN = some A2n.length)
    (gd1 : c2 = A2d ++ mDESC ++ vd ++ '\n' :: B2d)
    (gd2 : findSub c2 mDESC = some A2d.length)
    (gm1 : c2 = A2m ++ mMPS ++ vm ++ mMPE ++ B2m)
    (gm2 : findSub c2 mMPS = some A2m.length)
    (gm3 : findSub c2 mMPE = some (A2m.length + mMPS.length + vm.length))
    (gr1 : c2 = A2r ++ mRQS ++ vr ++ mRQE ++ B2r)
    (gr2 : findSub c2 mRQS = some A2r.length)
    (gr3 : findSub c2 mRQE = some (A2r.length + mRQS.length + vr.length))
    (gk1 : c2 = A2k ++ mRDS ++ vk ++ mRDE ++ B2k)
    (gk2 : findSub c2 mRDS = some A2k.length)
    (gk3 : findSub c2 mRDE = some (A2k.length + mRDS.length + vk.length)) :
    parseStructuredResponse c = Except.ok
      { project_name := some (pyStrip vn), description := some (pyStrip vd),
        main_py := some (pyStrip vm), requirements_txt := some (pyStrip vr),
        readme_md := some (pyStrip vk) } ∧
    parseStructuredResponse c2 = Except.ok
      { project_name := some (pyStrip vn), description := some (pyStrip vd),
        main_py := some (pyStrip vm), requirements_txt := some (pyStrip vr),
        readme_md := some (pyStrip vk) } ∧
    parseStructuredResponse c = parseStructuredResponse c2 := by
  have h1 := parse_wf c An vn Bn Ad vd Bd Am vm Bm Ar vr Br Ak vk Bk
    hn1 hn2 hn3 hd1 hd2 hd3 hm1 hm2 hm3 hr1 hr2 hr3 hk1 hk2 hk3
  have h2 := parse_wf c2 A2n vn B2n A2d vd B2d A2m vm B2m A2r vr B2r A2k vk B2k
    gn1 gn2 hn3 gd1 gd2 hd3 gm1 gm2 gm3 gr1 gr2 gr3 gk1 gk2 gk3
  exact ⟨h1, h2, h1.trans h2.symm⟩

/-- Witness for C1: `wfContentA` and `wfContentB` carry the same five
field values in two different orders and parse identically. -/
theorem parse_fiveFields_order_independent_witness :
    parseStructuredResponse wfContentA = Except.ok
      { project_name := some (pyStrip (" demo".toList)),
        description := some (pyStrip (" sample".toList)),
        main_py := some (pyStrip ("\ncode\n".toList)),
        requirements_txt := some (pyStrip ("\nreq\n".toList)),
        readme_md := some (pyStrip ("\nread\n".toList)) } ∧
    parseStructuredResponse wfContentB = Except.ok
      { project_name := some (pyStrip (" demo".toList)),
        description := some (pyStrip (" sample".toList)),
        main_py := some (pyStrip ("\ncode\n".toList)),
        requirements_txt := some (pyStrip ("\nreq\n".toList)),
        readme_md := some (pyStrip ("\nread\n".toList)) } ∧
    parseStructuredResponse wfContentA = parseStructuredResponse wfContentB :=
  parse_fiveFields_order_independent wfContentA wfContentB
    (" demo".toList) (" sample".toList) ("\ncode\n".toList) ("\nreq\n".toList)
    ("\nread\n".toList)
    ("".toList)
    (("DESCRIPTION: sample\n===MAIN_PY_START===\ncode\n===MAIN_PY_END===\n" ++
      "===REQUIREMENTS_START===\nreq\n===REQUIREMENTS_END===\n" ++
      "===README_START===\nread\n===README_END===\n").toList)
    ("PROJECT_NAME: demo\n".toList)
    (("===MAIN_PY_START===\ncode\n===MAIN_PY_END===\n" ++
      "===REQUIREMENTS_START===\nreq\n===REQUIREMENTS_END===\n" ++
      "===README_START===\nread\n===README_END===\n").toList)
    ("PROJECT_NAME: demo\nDESCRIPTION: sample\n".toList)
    (("\n===REQUIREMENTS_START===\nreq\n===REQUIREMENTS_END===\n" ++
      "===README_START===\nread\n===README_END===\n").toList)
    (("PROJECT_NAME: demo\nDESCRIPTION: sample\n" ++
      "===MAIN_PY_START===\ncode\n===MAIN_PY_END===\n").toList)
    ("\n===README_START===\nread\n===README_END===\n".toList)
    (("PROJECT_NAME: demo\nDESCRIPTION: sample\n" ++
      "===MAIN_PY_START===\ncode\n===MAIN_PY_END===\n" ++
      "===REQUIREMENTS_START===\nreq\n===REQUIREMENTS_END===\n").toList)
    ("\n".toList)
    (("===README_START===\nread\n===README_END===\n" ++
      "===REQUIREMENTS_START===\nreq\n===REQUIREMENTS_END===\nDESCRIPTION: sample\n").toList)
    ("===MAIN_PY_START===\ncode\n===MAIN_PY_END===\n".toList)
    (("===README_START===\nread\n===README_END===\n" ++
      "===REQUIREMENTS_START===\nreq\n===REQUIREMENTS_END===\n").toList)
    ("PROJECT_NAME: demo\n===MAIN_PY_START===\ncode\n===MAIN_PY_END===\n".toList)
    (("===README_START===\nread\n===README_END===\n" ++
      "===REQUIREMENTS_START===\nreq\n===REQUIREMENTS_END===\n" ++
      "DESCRIPTION: sample\nPROJECT_NAME: demo\n").toList)
    ("\n".toList)
    ("===README_START===\nread\n===README_END===\n".toList)
    (("\nDESCRIPTION: sample\nPROJECT_NAME: demo\n" ++
      "===MAIN_PY_START===\ncode\n===MAIN_PY_END===\n").toList)
    ("".toList)
    (("\n===REQUIREMENTS_START===\nreq\n===REQUIREMENTS_END===\n" ++
      "DESCRIPTION: sample\nPROJECT_NAME: demo\n" ++
      "===MAIN_PY_START===\ncode\n===MAIN_PY_END===\n").toList)
    (by decide) (by decide) (by decide) (by decide) (by decide) (by decide)
    (by decide) (by decide) (by decide) (by decide) (by decide) (by decide)
    (by decide) (by decide) (by decide) (by decide) (by decide) (by decide)
    (by decide) (by decide) (by decide) (by decide) (by decide) (by decide)
    (by decide) (by decide) (by decide) (by decide)

/-- C5: for content carrying only a `PROJECT_NAME:` line and the main
block markers (all other field markers absent), the parsed mapping has
the literal default description, the literal placeholder requirements,
and a readme stub built from the mapping's name and description. -/
theorem parse_defaults (c : List Char)
    (_hpn : pyContains c mPN = true)
    (hms : pyContains c mMPS = true) (hme : pyContains c mMPE = true)
    (hd : pyContains c mDESC = false)
    (hrs : pyContains c mRQS = false)
    (hks : pyContains c mRDS = false) :
    ∃ r, parseStructuredResponse c = Except.ok r ∧
      r.description = some descDefault ∧
      r.requirements_txt = some reqDefault ∧
      r.readme_md = some ("# ".toList ++ r.project_name.getD [] ++ "\n\n".toList ++
        descDefault) := by
  obtain ⟨r, hr⟩ := parse_ok_exists c hms hme
  obtain ⟨p1, p2, p3, p4⟩ := parse_ok_proj c r hr
  have hdn : extractLineField c mDESC = none := extractLineField_none c mDESC hd
  have hrn : extractBlockField c mRQS mRQE = none :=
    extractBlockField_none c mRQS mRQE (by rw [hrs]; rfl)
  have hkn : extractBlockField c mRDS mRDE = none :=
    extractBlockField_none c mRDS mRDE (by rw [hks]; rfl)
  refine ⟨r, hr, ?_, ?_, ?_⟩
  · rw [p2, hdn]
    rfl
  · rw [p3, hrn]
    rfl
  · rw [p4, hkn, hdn, p1]
    rfl

/-- Witness for C5 at `minimalContent`. -/
theorem parse_defaults_witness :
    ∃ r, parseStructuredResponse minimalContent = Except.ok r ∧
      r.description = some descDefault ∧
      r.requirements_txt = some reqDefault ∧
      r.readme_md = some ("# ".toList ++ r.project_name.getD [] ++ "\n\n".toList ++
        descDefault) :=
  parse_defaults minimalContent (by decide) (by decide) (by decide) (by decide)
    (by decide) (by decide)

/-- C6: for content containing `PROJECT_NAME:` (respectively
`DESCRIPTION:`), the parser sets the field to the whitespace-trimmed
text between the marker's first occurrence and the next newline
character. -/
theorem lineFields_first_occurrence_newline (c : List Char) :
    (∀ A v B, c = A ++ mPN ++ v ++ '\n' :: B → findSub c mPN = some A.length →
      '\n' ∉ v →
      extractLineField c mPN = some (pyStrip v) ∧
      ∀ r, parseStructuredResponse c = Except.ok r →
        r.project_name = some (pyStrip v)) ∧
    (∀ A v B, c = A ++ mDESC ++ v ++ '\n' :: B → findSub c mDESC = some A.length →
      '\n' ∉ v →
      extractLineField c mDESC = some (pyStrip v) ∧
      ∀ r, parseStructuredResponse c = Except.ok r →
        r.description = some (pyStrip v)) := by
  constructor
  · intro A v B h1 h2 h3
    have he := extractLineField_wf c A v B mPN h1 h2 h3
    refine ⟨he, ?_⟩
    intro r hr
    rw [(parse_ok_proj c r hr).1, he]
    rfl
  · intro A v B h1 h2 h3
    have he := extractLineField_wf c A v B mDESC h1 h2 h3
    refine ⟨he, ?_⟩
    intro r hr
    rw [(parse_ok_proj c r hr).2.1, he]
    rfl

/-- Witness for C6 at `lineContent`. -/
theorem lineFields_first_occurrence_newline_witness :
    extractLineField lineContent mPN = some (pyStrip (" px".toList)) ∧
    extractLineField lineContent mDESC = some (pyStrip (" dx".toList)) := by
  constructor
  · exact ((lineFields_first_occurrence_newline lineContent).1 ("".toList) (" px".toList)
      ("DESCRIPTION: dx\n===MAIN_PY_START===\nm\n===MAIN_PY_END===\n".toList)
      (by decide) (by decide) (by decide)).1
  · exact ((lineFields_first_occurrence_newline lineContent).2 ("PROJECT_NAME: px\n".toList)
      (" dx".toList) ("===MAIN_PY_START===\nm\n===MAIN_PY_END===\n".toList)
      (by decide) (by decide) (by decide)).1

/-- C9: for every content, `_parse_structured_response` either raises or
returns a mapping containing all four required keys, so the
missing-required-fields branch of `_parse_response` is unreachable. -/
theorem parse_fields_total :
    ∀ content : List Char,
      ((∃ e, parseStructuredResponse content = Except.error e) ∨
        ∃ r, parseStructuredResponse content = Except.ok r ∧
          r.project_name.isSome = true ∧ r.main_py.isSome = true ∧
          r.requirements_txt.isSome = true ∧ r.readme_md.isSome = true) ∧
      (parseResponseRun content).2 ≠ Except.error missingMsg := by
  intro content
  cases hmp : extractBlockField content mMPS mMPE with
  | none =>
    have hp : parseStructuredResponse content = Except.error noMainMsg := by
      rw [parse_eval, hmp]
    constructor
    · exact Or.inl ⟨noMainMsg, hp⟩
    · unfold parseResponseRun
      rw [hp]
      intro heq
      exact absurd (Except.error.inj heq) (by decide)
  | some m =>
    have hp : parseStructuredResponse content = Except.ok
        ⟨some ((extractLineField content mPN).getD pnDefault),
         some ((extractLineField content mDESC).getD descDefault), some m,
         some ((extractBlockField content mRQS mRQE).getD reqDefault),
         some ((extractBlockField content mRDS mRDE).getD
           ("# ".toList ++ (extractLineField content mPN).getD pnDefault ++
            "\n\n".toList ++ (extractLineField content mDESC).getD descDefault))⟩ := by
      rw [parse_eval, hmp]
    constructor
    · exact Or.inr ⟨_, hp, rfl, rfl, rfl, rfl⟩
    · unfold parseResponseRun
      rw [hp]
      intro heq
      exact Except.noConfusion heq

/-- C2 counterexample: on content with no main markers the run still
performs a file write: the unconditional debug dump, so the write trace
is not empty. -/
theorem runPipeline_noSource_counterexample :
    (runPipeline ("projects".toList) noMarkerContent none ("2026-01-01".toList)).1 =
      [debugWrite noMarkerContent] ∧
    [debugWrite noMarkerContent] ≠ ([] : List FileWrite) ∧
    (runPipeline ("projects".toList) noMarkerContent none ("2026-01-01".toList)).2 =
      Except.error noMainMsg := by
  refine ⟨rfl, by simp, rfl⟩

/-- C2 (amended): for content missing the main marker pair the run fails
with the no-source error and writes no project files; the only write it
performs is the unconditional debug dump of the raw content. -/
theorem runPipeline_noSource (baseDir content : List Char)
    (customName : Option (List Char)) (today : List Char)
    (h : ¬(pyContains content mMPS = true ∧ pyContains content mMPE = true)) :
    runPipeline baseDir content customName today =
      ([debugWrite content], Except.error noMainMsg) := by
  have hmn : extractBlockField content mMPS mMPE = none := by
    apply extractBlockField_none
    cases h1 : pyContains content mMPS <;> cases h2 : pyContains content mMPE <;> simp_all
  have hp : parseStructuredResponse content = Except.error noMainMsg := by
    rw [parse_eval, hmn]
  unfold runPipeline parseResponseRun
  rw [hp]

/-- Witness for C2 (amended) at `noMarkerContent`. -/
theorem runPipeline_noSource_witness :
    runPipeline ("projects".toList) noMarkerContent none ("2026-01-01".toList) =
      ([debugWrite noMarkerContent], Except.error noMainMsg) :=
  runPipeline_noSource ("projects".toList) noMarkerContent none ("2026-01-01".toList)
    (by decide)

/-- C3 counterexample: a JSON object payload carrying all five fields
(plain or fenced) is not parsed as JSON into the field mapping: the
parser fails with the no-source error on both. -/
theorem parse_json_counterexample :
    parseStructuredResponse jsonContent = Except.error noMainMsg ∧
    parseStructuredResponse fencedJsonContent = Except.error noMainMsg :=
  ⟨rfl, rfl⟩

/-- C3 (amended): the parser supports a single wire format, the
delimited-marker layout; JSON object payloads (fenced or not) are not
parsed as JSON and fail with the no-source error, while delimited
content is parsed into the field mapping. -/
theorem parse_single_wire_format :
    parseStructuredResponse jsonContent = Except.error noMainMsg ∧
    parseStructuredResponse fencedJsonContent = Except.error noMainMsg ∧
    parseStructuredResponse delimContent = Except.ok
      { project_name := some ("calc".toList), description := some descDefault,
        main_py := some ("print(1)".toList), requirements_txt := some reqDefault,
        readme_md := some ("# calc\n\nAI generated Python project".toList) } :=
  ⟨rfl, rfl, rfl⟩

/-- C7: for a mapping whose readme value is Hello, the enhanced README
ends with a newline, contains the Project Information heading, and
contains the line python main.py inside the fenced installation block. -/
theorem enhanceReadme_hello (date : List Char) (data : RawFields)
    (h : data.readme_md = some ("Hello".toList)) :
    pyEndsWith (enhanceReadme (data.readme_md.getD []) date data) nlChar = true ∧
    pyContains (enhanceReadme (data.readme_md.getD []) date data)
      ("## Project Information".toList) = true ∧
    pyContains (enhanceReadme (data.readme_md.getD []) date data)
      ("```bash\npip install -r requirements.txt\npython main.py\n```\n".toList) = true := by
  rw [h]
  simp only [Option.getD_some]
  unfold enhanceReadme
  refine ⟨?_, ?_, ?_⟩
  · apply pyEndsWith_append_right
    decide
  · simp only [List.append_assoc]
    apply pyContains_append_right
    apply pyContains_append_left
    decide
  · simp only [List.append_assoc]
    apply pyContains_append_right
    apply pyContains_append_right
    apply pyContains_append_right
    apply pyContains_append_right
    apply pyContains_append_right
    apply pyContains_append_right
    apply pyContains_append_right
    apply pyContains_append_right
    decide

/-- Witness for C7 at `helloData`. -/
theorem enhanceReadme_hello_witness :
    pyEndsWith (enhanceReadme (helloData.readme_md.getD []) ("2026-01-01".toList)
      helloData) nlChar = true ∧
    pyContains (enhanceReadme (helloData.readme_md.getD []) ("2026-01-01".toList)
      helloData) ("## Project Information".toList) = true ∧
    pyContains (enhanceReadme (helloData.readme_md.getD []) ("2026-01-01".toList)
      helloData)
      ("```bash\npip install -r requirements.txt\npython main.py\n```\n".toList) = true :=
  enhanceReadme_hello ("2026-01-01".toList) helloData rfl

end ProjGen
